import Mathlib

/-!
Verification of the query-resolution logic of the flood chat assistant
(`src/flood.py`): a shallow embedding of the hardcoded Q and A table, the
input normalization, the canned-vs-delegated resolver, the transcript
update performed per submission, and the startup credential check.

The external LLM answering service (`agent_executor.invoke`) is opaque in
the source; it is modelled as an arbitrary function from a prompt string to
either a textual output or an error message (`Except String String`),
matching Python code that either returns a value or raises. Python string
operations (`str.lower`, `str.strip`, truthiness) are modelled on their
ASCII behaviour, which covers every string the program itself contains.
-/

set_option maxRecDepth 100000

namespace Flood

/-- Service abstraction: a prompt is mapped to either a textual output
(`Except.ok`) or a raised error with message (`Except.error`). -/
abbrev Svc := String → Except String String

/-- Characters removed by Python `str.strip()` (the ASCII whitespace set). -/
def isPySpace (c : Char) : Bool :=
  c = ' ' || c = '\t' || c = '\n' || c = '\x0d' || c = '\x0b' || c = '\x0c'

/-- Python `str.lower()` on ASCII letters. -/
def pyLower (s : String) : String := String.mk (s.data.map Char.toLower)

/-- Python `str.strip()`: drop leading and trailing whitespace. -/
def pyStrip (s : String) : String :=
  String.mk (((s.data.dropWhile isPySpace).reverse.dropWhile isPySpace).reverse)

/-- Normalization applied before table lookup: `user_input.lower().strip()`
(flood.py line 142). -/
def lowerStrip (s : String) : String := pyStrip (pyLower s)

/-- Schema-context text: the triple-quoted `data_dictionary` of flood.py (lines 33-99),
prepended to every delegated query. -/
def data_dictionary : String :=
  "\n"
  ++ "### Detailed Data Dictionary for 'flood.db'\n"
  ++ "\n"
  ++ "The database contains three tables: **inundation_forecasting**, **rainfall**, and **alerts**.\n"
  ++ "Below is a detailed breakdown of each column and their relationships.\n"
  ++ "\n"
  ++ "---\n"
  ++ "\n"
  ++ "#### 1. inundation_forecasting\n"
  ++ "- **datetime**: Timestamp indicating the date and time of the forecast (e.g. \"2025-01-01 08:00:00\").\n"
  ++ "- **ht_forecast**: Numerical value representing the predicted water height or inundation level (e.g. \"5.2 feet\").\n"
  ++ "- **latitude**: Geographic latitude coordinate for the forecast location (e.g. \"24.4539\").\n"
  ++ "- **longitude**: Geographic longitude coordinate for the forecast location (e.g. \"54.3773\").\n"
  ++ "\n"
  ++ "**Purpose**:  \n"
  ++ "This table is used to store predictive data for flooding. The `ht_forecast` helps determine flood severity, and the lat/long fields map exactly where the forecast is applicable.\n"
  ++ "\n"
  ++ "---\n"
  ++ "\n"
  ++ "#### 2. rainfall\n"
  ++ "- **precipInches**: Amount of rainfall measured in inches (e.g. \"0.75\").\n"
  ++ "- **deviceId**: Unique identifier of the device recording rainfall (e.g. \"R123\").\n"
  ++ "- **deviceLabel**: Human-readable label/name of the device (e.g. \"Downtown Rain Gauge\").\n"
  ++ "- **region**: Region or area name associated with the device (e.g. \"Abu Dhabi City Center\").\n"
  ++ "- **msr_date**: Date of the measurement (e.g. \"2025-01-05\").\n"
  ++ "- **msr_time**: Time of the measurement (e.g. \"14:30:00\").\n"
  ++ "- **latitude**: Geographic latitude coordinate of the device (e.g. \"24.4539\").\n"
  ++ "- **longitude**: Geographic longitude coordinate of the device (e.g. \"54.3773\").\n"
  ++ "- **msr_dttm**: Combined date-time of the measurement, often used for queries and analysis (e.g. \"2025-01-05 14:30:00\").\n"
  ++ "\n"
  ++ "**Purpose**:  \n"
  ++ "This table tracks rainfall data from various devices. The `region` column can be linked to the region in alerts or used in conjunction with lat/long to match forecasting data or alerts.\n"
  ++ "\n"
  ++ "---\n"
  ++ "\n"
  ++ "#### 3. alerts\n"
  ++ "- **alertType**: Type of alert (e.g. \"Flood Warning\", \"Flash Flood\", \"High Tide\").\n"
  ++ "- **alertSubtype**: More specific subtype of the alert (e.g. \"Severe\", \"Moderate\").\n"
  ++ "- **alertSeverity**: Severity level (e.g. \"Critical\", \"High\", \"Medium\", \"Low\").\n"
  ++ "- **alertMessage**: Text describing the alert (e.g. \"Flash Flood Watch in effect until 6 PM.\").\n"
  ++ "- **deviceId**: Device ID associated with the alert; may link to `rainfall.deviceId` if relevant.\n"
  ++ "- **region**: Region name where the alert is applicable (e.g. \"Al Nahdah\").\n"
  ++ "- **msr_dttm**: Combined date-time when the alert was issued (e.g. \"2025-01-05 14:45:00\").\n"
  ++ "- **msr_date**: Date when the alert was issued (e.g. \"2025-01-05\").\n"
  ++ "- **msr_time**: Time when the alert was issued (e.g. \"14:45:00\").\n"
  ++ "- **msr_month**: Month of the alert, either numeric or textual (e.g. \"January\" or \"01\").\n"
  ++ "- **Lat**: Latitude coordinate of the alert location (e.g. \"24.4539\").\n"
  ++ "- **Long**: Longitude coordinate of the alert location (e.g. \"54.3773\").\n"
  ++ "\n"
  ++ "**Purpose**:  \n"
  ++ "This table stores alerts that have been triggered, including the type of flood alert, severity, and location details.\n"
  ++ "\n"
  ++ "---\n"
  ++ "\n"
  ++ "### Potential Relationships:\n"
  ++ "1. **alerts.deviceId** ⇔ **rainfall.deviceId**:  \n"
  ++ "   If both the `alerts` and `rainfall` tables share the same device ID, they can be joined to correlate which specific rainfall device triggered an alert.\n"
  ++ "2. **alerts.region** ⇔ **rainfall.region**:  \n"
  ++ "   If you want to track all alerts for a given region, you can join on the `region` column. The same can be done with `inundation_forecasting` if you assign region names consistently or rely on the lat/long proximity to match the region.\n"
  ++ "3. **Spatial/Geographic Matching**:  \n"
  ++ "   By comparing lat/long values in `inundation_forecasting`, `rainfall`, and `alerts`, you can determine how different meteorological or hydrological events line up in the same area.\n"
  ++ "\n"
  ++ "---\n"
  ++ "\n"
  ++ "### Usage:\n"
  ++ "Use this data dictionary to understand the purpose of each field when querying the database or building flood-related analytics.\n"

/-- Key 1 of the hardcoded Q and A table (flood.py lines 102-127). -/
def qa_key1 : String := "which area will have a high impact for future floods"

/-- Canned answer associated with key 1 in the hardcoded Q and A table. -/
def qa_answer1 : String :=
  "Based on our historical data and current forecasting models, the areas that exhibit the highest vulnerability to future flood events are **Al Adlah**, **Al Nahdah**, **Bu Deeb**, and **Al Haffar**. These locations consistently appear in our inundation forecasts due to their geographical profiles and proximity to low-lying flood plains."

/-- Key 2 of the hardcoded Q and A table (flood.py lines 102-127). -/
def qa_key2 : String := "recommendation to reduce impact"

/-- Canned answer associated with key 2 in the hardcoded Q and A table. -/
def qa_answer2 : String :=
  "To mitigate the risk in these high-impact areas, we recommend an integrated approach:\n"
  ++ "\n"
  ++ "1. **Infrastructure Upgrades**: Enhance and maintain drainage systems, and consider building    protective levees or flood barriers.\n"
  ++ "2. **Smart Monitoring**: Install additional rainfall gauges and flood sensors for real-time monitoring.\n"
  ++ "3. **Urban Planning**: Implement zoning regulations to limit construction in flood-prone zones.\n"
  ++ "4. **Community Preparedness**: Conduct regular flood drills, ensure early-warning systems are in place,    and provide public education on emergency response."

/-- Key 3 of the hardcoded Q and A table (flood.py lines 102-127). -/
def qa_key3 : String := "why are these areas impacted"

/-- Canned answer associated with key 3 in the hardcoded Q and A table. -/
def qa_answer3 : String :=
  "These regions are particularly vulnerable due to a combination of factors:\n"
  ++ "\n"
  ++ "- **Topography**: Areas like Al Adlah and Al Nahdah have lower elevations, causing water to accumulate.\n"
  ++ "- **Coastal Proximity**: Bu Deeb is near a coastal plain, making it susceptible to storm surges.\n"
  ++ "- **Drainage and Infrastructure**: Al Haffar’s drainage systems may require updates to handle heavy rainfall.\n"
  ++ "- **Historical Patterns**: Data shows these areas have experienced recurring flood incidents,    indicating underlying vulnerabilities that require focused intervention."

/-- The hardcoded Q and A table (flood.py lines 102-127), as an ordered
association list from normalized question keys to canned answers. -/
def hardcoded_qa : List (String × String) :=
  [(qa_key1, qa_answer1), (qa_key2, qa_answer2), (qa_key3, qa_answer3)]

/-- Python dict lookup on an association list with string keys. -/
def lookupIn : List (String × String) → String → Option String
  | [], _ => none
  | (k, v) :: rest, q => if k == q then some v else lookupIn rest q

/-- Lookup in the hardcoded table: `hardcoded_qa[user_input_lower]` guarded by
the membership test `user_input_lower in hardcoded_qa` (flood.py lines 148-150). -/
def qaLookup (q : String) : Option String := lookupIn hardcoded_qa q

/-- Delegated prompt construction:
`query = f"{data_dictionary}\x7b\x7d\n\n{user_input}"` without the braces,
that is `data_dictionary`, the separator, then the original input
(flood.py line 145). -/
def mkQuery (user_input : String) : String :=
  data_dictionary ++ "\n\n" ++ user_input

/-- Resolution of one question (flood.py lines 141-153 together with the
`except` formatting of line 158), instrumented with the list of prompts sent
to the external service. Returns the textual result and that call trace. -/
def resolveCalls (svc : Svc) (user_input : String) : String × List String :=
  let user_input_lower := lowerStrip user_input
  let query := mkQuery user_input
  match qaLookup user_input_lower with
  | some result => (result, [])
  | none =>
    match svc query with
    | Except.ok out => (out, [query])
    | Except.error e => ("Error: " ++ e, [query])

/-- Resolution result alone: the string shown as the assistant answer. -/
def resolve (svc : Svc) (user_input : String) : String :=
  (resolveCalls svc user_input).1

/-- Mutable application state: the Q and A table, the schema-context text and
the session conversation transcript (speaker, message pairs). -/
structure AppState where
  qa : List (String × String)
  dataDict : String
  conversation : List (String × String)

/-- Turns appended to the transcript by one submission (flood.py lines
147-158): on the canned and delegated paths a User turn then an Assistant
turn; when the service call raises, the `except` branch appends only the
Assistant error turn, since the exception escapes before the User append. -/
def submitTurns (svc : Svc) (qa : List (String × String)) (dd : String)
    (user_input : String) : List (String × String) :=
  if user_input == "" then []
  else
    match lookupIn qa (lowerStrip user_input) with
    | some result => [("User", user_input), ("Assistant", result)]
    | none =>
      match svc (dd ++ "\n\n" ++ user_input) with
      | Except.ok result => [("User", user_input), ("Assistant", result)]
      | Except.error e => [("Assistant", "Error: " ++ e)]

/-- One submission step on the application state (flood.py lines 140-158):
only the conversation transcript is extended. -/
def submitState (svc : Svc) (s : AppState) (user_input : String) : AppState :=
  { s with conversation :=
      s.conversation ++ submitTurns svc s.qa s.dataDict user_input }

/-- Initial application state at startup. -/
def initState : AppState :=
  { qa := hardcoded_qa, dataDict := data_dictionary, conversation := [] }

/-- Python truthiness of `os.getenv`: `not api_key` holds for an absent
variable (None) and for the empty string. -/
def pyFalsy : Option String → Bool
  | none => true
  | some s => s == ""

/-- Startup credential check (flood.py lines 16-20): read `OPENAI_API_KEY`
from the environment, abort with a ValueError message when falsy, otherwise
proceed with the key. -/
def startup (env : String → Option String) : Except String String :=
  let api_key := env "OPENAI_API_KEY"
  if pyFalsy api_key then
    Except.error "OPENAI_API_KEY not found. Please add it to your .env file."
  else
    Except.ok (api_key.getD "")

/-- Echo service used as a concrete delegated-service model. -/
def echoSvc : Svc := fun p => Except.ok p

/-- Service returning a fixed successful answer. -/
def okSvc : Svc := fun _ => Except.ok "The rainfall today is 0.2 inches."

/-- Service whose every call raises a connection error. -/
def errSvc : Svc := fun _ => Except.error "Connection error"

/-- Helper: the delegated prompt determines the original question (list
cancellation on the fixed schema prefix and separator). -/
lemma mkQuery_inj {a b : String} (h : mkQuery a = mkQuery b) : a = b := by
  have hd := congrArg String.data h
  simp only [mkQuery, String.data_append, List.append_assoc] at hd
  exact String.ext (List.append_cancel_left (List.append_cancel_left hd))

/-- Helper: when the normalized input is a key of the table, resolution
returns the stored answer and performs no service call. -/
lemma resolveCalls_canned (svc : Svc) (q ans : String)
    (h : qaLookup (lowerStrip q) = some ans) :
    resolveCalls svc q = (ans, []) := by
  simp [resolveCalls, h]

/-- C1: a question whose normalization is one of the three canonical keys is
answered with exactly the fixed string stored for that key, and the external
service is not invoked (empty call trace). -/
theorem C1_canned_no_service (svc : Svc) (q ans : String)
    (h : qaLookup (lowerStrip q) = some ans) :
    resolveCalls svc q = (ans, []) :=
  resolveCalls_canned svc q ans h

/-- C1 witness: a mixed-case, whitespace-padded form of the first canonical
question is answered with the first canned answer, with no service call. -/
theorem C1_canned_no_service_witness :
    resolveCalls errSvc "  Which Area Will Have A High Impact For Future Floods "
      = (qa_answer1, []) :=
  C1_canned_no_service errSvc _ qa_answer1 (by decide)

/-- C2: a question missing the table is delegated exactly once, with the
prompt being the schema context, the separator, then the original question,
and a successful service output is returned verbatim. -/
theorem C2_delegated_once_verbatim (svc : Svc) (q : String)
    (h : qaLookup (lowerStrip q) = none) :
    (resolveCalls svc q).2 = [data_dictionary ++ "\n\n" ++ q] ∧
    ∀ out, svc (data_dictionary ++ "\n\n" ++ q) = Except.ok out →
      (resolveCalls svc q).1 = out := by
  constructor
  · cases hs : svc (data_dictionary ++ "\n\n" ++ q) <;>
      simp [resolveCalls, h, mkQuery, hs]
  · intro out hout
    simp [resolveCalls, h, mkQuery, hout]

/-- C2 witness: a non-canonical question is sent to the service once with
the schema-prefixed prompt, and the service output comes back unchanged. -/
theorem C2_delegated_once_verbatim_witness :
    (resolveCalls okSvc "What is the rainfall in Abu Dhabi today?").2
      = [data_dictionary ++ "\n\n" ++ "What is the rainfall in Abu Dhabi today?"] ∧
    (resolveCalls okSvc "What is the rainfall in Abu Dhabi today?").1
      = "The rainfall today is 0.2 inches." := by
  have h := C2_delegated_once_verbatim okSvc "What is the rainfall in Abu Dhabi today?"
    (by decide)
  exact ⟨h.1, h.2 _ rfl⟩

/-- C3: when the service call raises, resolution returns the string
"Error: " followed by the raised message instead of propagating; the
embedding of resolution is total, so no call of it throws. -/
theorem C3_error_formatted (svc : Svc) (q e : String)
    (hmiss : qaLookup (lowerStrip q) = none)
    (h : svc (data_dictionary ++ "\n\n" ++ q) = Except.error e) :
    resolve svc q = "Error: " ++ e := by
  simp [resolve, resolveCalls, hmiss, mkQuery, h]

/-- C3 witness: a simulated connection error surfaces as the formatted
error string. -/
theorem C3_error_formatted_witness :
    resolve errSvc "Show me all alerts" = "Error: Connection error" :=
  C3_error_formatted errSvc "Show me all alerts" "Connection error" (by decide) rfl

/-- C4 counterexample: a failing submission appends only the Assistant error
turn; no User turn carrying the submitted text is added, contradicting the
claim that every resolving submission contributes both turns. -/
theorem C4_counterexample :
    (submitState errSvc initState "hello").conversation
      = [("Assistant", "Error: Connection error")] ∧
    ("User", "hello") ∉ (submitState errSvc initState "hello").conversation :=
  ⟨by decide, by decide⟩

/-- C4 (amended): a canned or successfully delegated submission appends a
User turn with the submitted text then an Assistant turn with the result;
a failing submission appends only the Assistant "Error: " turn. -/
theorem C4_amended_turns (svc : Svc) (s : AppState) (q : String) (hq : q ≠ "") :
    (∀ ans, lookupIn s.qa (lowerStrip q) = some ans →
      (submitState svc s q).conversation
        = s.conversation ++ [("User", q), ("Assistant", ans)]) ∧
    (∀ out, lookupIn s.qa (lowerStrip q) = none →
      svc (s.dataDict ++ "\n\n" ++ q) = Except.ok out →
      (submitState svc s q).conversation
        = s.conversation ++ [("User", q), ("Assistant", out)]) ∧
    (∀ e, lookupIn s.qa (lowerStrip q) = none →
      svc (s.dataDict ++ "\n\n" ++ q) = Except.error e →
      (submitState svc s q).conversation
        = s.conversation ++ [("Assistant", "Error: " ++ e)]) := by
  have hq' : (q == "") = false := by simp [hq]
  refine ⟨fun ans h => ?_, fun out h1 h2 => ?_, fun e h1 h2 => ?_⟩ <;>
    simp [submitState, submitTurns, hq', *]

/-- C4 witness: a canonical question appends both the User turn and the
Assistant turn with the canned answer. -/
theorem C4_amended_turns_witness :
    (submitState errSvc initState "why are these areas impacted").conversation
      = [("User", "why are these areas impacted"), ("Assistant", qa_answer3)] := by
  have h := (C4_amended_turns errSvc initState "why are these areas impacted"
    (by decide)).1 qa_answer3 (by decide)
  simpa [initState] using h

/-- C5: the table key set is exactly the three canonical questions, and
matching is exact, so a lookup succeeds precisely on those three strings. -/
theorem C5_exact_three_keys (q : String) :
    (qaLookup q).isSome = true ↔ (q = qa_key1 ∨ q = qa_key2 ∨ q = qa_key3) := by
  constructor
  · intro h
    by_contra hq
    push_neg at hq
    obtain ⟨n1, n2, n3⟩ := hq
    have b1 : (qa_key1 == q) = false := beq_eq_false_iff_ne.mpr (Ne.symm n1)
    have b2 : (qa_key2 == q) = false := beq_eq_false_iff_ne.mpr (Ne.symm n2)
    have b3 : (qa_key3 == q) = false := beq_eq_false_iff_ne.mpr (Ne.symm n3)
    simp [qaLookup, lookupIn, hardcoded_qa, b1, b2, b3] at h
  · rintro (rfl | rfl | rfl) <;> decide

/-- C5 witness: the second canonical question is a key; a one-character
variant of it is not. -/
theorem C5_exact_three_keys_witness :
    (qaLookup "recommendation to reduce impact").isSome = true ∧
    (qaLookup "recommendation to reduce impacts").isSome = false := by
  constructor
  · exact (C5_exact_three_keys "recommendation to reduce impact").mpr
      (Or.inr (Or.inl (by decide)))
  · have h := C5_exact_three_keys "recommendation to reduce impacts"
    cases hs : (qaLookup "recommendation to reduce impacts").isSome
    · rfl
    · rcases h.mp hs with h1 | h1 | h1 <;> exact absurd h1 (by decide)

/-- C6 counterexample: on the delegated path the original, non-normalized
question is forwarded, so a service distinguishing prompts answers the
case-variant pair "hello" and "HELLO" differently. -/
theorem C6_counterexample :
    resolve echoSvc "hello" ≠ resolve echoSvc "HELLO" := by
  intro h
  have h1 : qaLookup (lowerStrip "hello") = none := by decide
  have h2 : qaLookup (lowerStrip "HELLO") = none := by decide
  have e1 : resolve echoSvc "hello" = mkQuery "hello" := by
    simp [resolve, resolveCalls, echoSvc, h1]
  have e2 : resolve echoSvc "HELLO" = mkQuery "HELLO" := by
    simp [resolve, resolveCalls, echoSvc, h2]
  rw [e1, e2] at h
  exact absurd (mkQuery_inj h) (by decide)

/-- C6 (amended): two questions with the same normalization whose common
normalization hits the canonical table resolve identically; in particular
case and edge-whitespace variants of a canonical question do. -/
theorem C6_amended_canned (svc : Svc) (q₁ q₂ : String)
    (hnorm : lowerStrip q₁ = lowerStrip q₂)
    (hk : (qaLookup (lowerStrip q₁)).isSome = true) :
    resolve svc q₁ = resolve svc q₂ := by
  cases hfind : qaLookup (lowerStrip q₁) with
  | none => rw [hfind] at hk; simp at hk
  | some ans =>
    have e1 := resolveCalls_canned svc q₁ ans hfind
    have e2 := resolveCalls_canned svc q₂ ans (by rw [← hnorm]; exact hfind)
    simp [resolve, e1, e2]

/-- C6 witness: the two spellings of the recommendation question resolve to
the same result. -/
theorem C6_amended_canned_witness :
    resolve errSvc "Recommendation To Reduce Impact"
      = resolve errSvc "recommendation to reduce impact" :=
  C6_amended_canned errSvc _ _ (by decide) (by decide)

/-- C7: the canned path is deterministic and stateless: any number of
repetitions of a canonical question map to the same canned answer, and the
result does not depend on the service (the only varying collaborator). -/
theorem C7_canned_pure (svc₁ svc₂ : Svc) (q ans : String) (n : Nat)
    (h : qaLookup (lowerStrip q) = some ans) :
    (List.replicate n q).map (resolve svc₁) = List.replicate n ans ∧
    resolve svc₁ q = resolve svc₂ q := by
  have e1 := resolveCalls_canned svc₁ q ans h
  have e2 := resolveCalls_canned svc₂ q ans h
  constructor
  · simp [List.map_replicate, resolve, e1]
  · simp [resolve, e1, e2]

/-- C7 witness: three repetitions of the third canonical question yield its
canned answer three times, under both a failing and a succeeding service. -/
theorem C7_canned_pure_witness :
    (List.replicate 3 qa_key3).map (resolve errSvc) = List.replicate 3 qa_answer3 ∧
    resolve errSvc qa_key3 = resolve okSvc qa_key3 :=
  C7_canned_pure errSvc okSvc qa_key3 qa_answer3 3 (by decide)

/-- C8: with the credential variable absent, startup aborts with the
descriptive error before anything else; with a non-empty credential present,
startup proceeds past the check. -/
theorem C8_startup_credential (env : String → Option String) :
    (env "OPENAI_API_KEY" = none →
      startup env
        = Except.error "OPENAI_API_KEY not found. Please add it to your .env file.") ∧
    (∀ k, env "OPENAI_API_KEY" = some k → k ≠ "" → startup env = Except.ok k) := by
  constructor
  · intro h
    simp [startup, h, pyFalsy]
  · intro k h hk
    have hk' : (k == "") = false := by simp [hk]
    simp [startup, h, pyFalsy, hk']

/-- C8 witness: an empty environment aborts with the message; an environment
holding a key proceeds. -/
theorem C8_startup_credential_witness :
    startup (fun _ => none)
      = Except.error "OPENAI_API_KEY not found. Please add it to your .env file." ∧
    startup (fun _ => some "sk-test") = Except.ok "sk-test" :=
  ⟨(C8_startup_credential (fun _ => none)).1 rfl,
   (C8_startup_credential (fun _ => some "sk-test")).2 "sk-test" rfl (by decide)⟩

/-- C9: no sequence of submissions changes the Q and A table or the schema
context, so the turns a further submission would append are computed from
the same unchanged table and schema text. -/
theorem C9_immutable (svc : Svc) (s : AppState) (qs : List String) :
    (qs.foldl (submitState svc) s).qa = s.qa ∧
    (qs.foldl (submitState svc) s).dataDict = s.dataDict ∧
    ∀ nextq, submitTurns svc (qs.foldl (submitState svc) s).qa
        (qs.foldl (submitState svc) s).dataDict nextq
      = submitTurns svc s.qa s.dataDict nextq := by
  induction qs generalizing s with
  | nil => exact ⟨rfl, rfl, fun _ => rfl⟩
  | cons q rest ih =>
    have h := ih (submitState svc s q)
    exact ⟨h.1, h.2.1, h.2.2⟩

/-- C10: a credential set to the empty string is rejected exactly like an
absent one, with the same fatal error. -/
theorem C10_empty_credential (env envNone : String → Option String)
    (h : env "OPENAI_API_KEY" = some "") (h0 : envNone "OPENAI_API_KEY" = none) :
    startup env
      = Except.error "OPENAI_API_KEY not found. Please add it to your .env file." ∧
    startup env = startup envNone := by
  have e1 : startup env
      = Except.error "OPENAI_API_KEY not found. Please add it to your .env file." := by
    simp [startup, h, pyFalsy]
  have e2 : startup envNone
      = Except.error "OPENAI_API_KEY not found. Please add it to your .env file." := by
    simp [startup, h0, pyFalsy]
  exact ⟨e1, e1.trans e2.symm⟩

/-- C10 witness: the empty-string credential aborts with the message and
agrees with the absent-credential outcome. -/
theorem C10_empty_credential_witness :
    startup (fun _ => some "")
      = Except.error "OPENAI_API_KEY not found. Please add it to your .env file." ∧
    startup (fun _ => some "") = startup (fun _ => none) :=
  C10_empty_credential (fun _ => some "") (fun _ => none) rfl rfl

end Flood
